import Mathlib

/-!
Shallow embedding of the per-position risk-management core of the
auto-trading-system repository.  The stop, sizing and pyramiding functions
are embedded from the Python snippets of src/docs/ce.md; the WebSocket
message handling is embedded from src/admin/static/js/main.js.  Prices,
ATR values and sizes are modelled as rationals.
-/

/-- From src/docs/ce.md, section 八.1 (update_trailing_stop): hybrid
daily/hourly chandelier stop with gap protection, long case.  The function
recomputes the stop from the current bar's inputs; it takes no previous
stop value. -/
def update_trailing_stop (new_high_daily new_high_hourly daily_multiplier
    hourly_multiplier atr_daily atr_hourly last_close : ℚ) : ℚ :=
  let daily_stop := new_high_daily - daily_multiplier * atr_daily
  let hourly_stop := new_high_hourly - hourly_multiplier * atr_hourly
  let final_stop := max daily_stop hourly_stop
  if final_stop < last_close * (98/100) then last_close * (98/100) else final_stop

/-- Modelled from the spec: the short-side mirror of update_trailing_stop.
Spec 4.1 says only "mirrored for short" (min of the two stops, clamp at
last_close x 1.02); src/ contains no short branch. -/
def update_trailing_stop_short (new_low_daily new_low_hourly daily_multiplier
    hourly_multiplier atr_daily atr_hourly last_close : ℚ) : ℚ :=
  let daily_stop := new_low_daily + daily_multiplier * atr_daily
  let hourly_stop := new_low_hourly + hourly_multiplier * atr_hourly
  let final_stop := min daily_stop hourly_stop
  if last_close * (102/100) < final_stop then last_close * (102/100) else final_stop

/-- Maximum of a list of prices (Python max over a list): none when empty. -/
def listMax : List ℚ → Option ℚ
  | [] => none
  | x :: xs => some (xs.foldl max x)

/-- From src/docs/ce.md, section 五.1 (calculate_dynamic_stop): daily stop
from max(last 22 days high, current day high) minus 3 daily ATR, hourly stop
from max of the last 8 hourly highs minus 2 hourly ATR, result the stricter
(larger) of the two.  None when the hourly window is empty. -/
def calculate_dynamic_stop (last_22_days_high current_day_high daily_atr : ℚ)
    (last_8_hours_high : List ℚ) (hourly_atr : ℚ) : Option ℚ :=
  match listMax last_8_hours_high with
  | none => none
  | some hourly_high =>
      let daily_high := max last_22_days_high current_day_high
      let daily_stop := daily_high - 3 * daily_atr
      let hourly_stop := hourly_high - 2 * hourly_atr
      some (max daily_stop hourly_stop)

/-- From src/docs/ce.md, section 六.1 (头寸规模计算): risk_per_trade is 1
percent of account value, position size divides it by the entry-to-stop
distance. -/
def position_size (account_value entry_price initial_stop : ℚ) : ℚ :=
  let risk_per_trade := account_value * (1/100)
  risk_per_trade / (entry_price - initial_stop)

/-- Mutable strategy state read by add_position_check in src/docs/ce.md
section 八.2 (initial_risk is read alongside the strategy fields there). -/
structure Strategy where
  entry_price : ℚ
  current_risk : ℚ
  initial_risk : ℚ
  add_count : ℕ
  init_size : ℚ
deriving DecidableEq

/-- Per-symbol parameters read by add_position_check (params.max_add_times
and params.add_ratio in the source; the latter is named add_fraction here). -/
structure Params where
  max_add_times : ℕ
  add_fraction : ℚ
deriving DecidableEq

/-- The arguments strategy.add_position is called with when an add is
approved. -/
structure AddDecision where
  price : ℚ
  size : ℚ
  stop : ℚ
deriving DecidableEq

/-- From src/docs/ce.md, section 八.2 (add_position_check): approves an add
when price exceeds 1.03 x entry, current risk is below 0.7 x initial risk
and add_count is below max_add_times; the new lot size is
init_size x add_fraction ^ add_count and its stop current_price - 1.5 x ATR.
The function reads atr_current only to set the new lot's stop. -/
def add_position_check (current_price : ℚ) (s : Strategy) (p : Params)
    (atr_current : ℚ) : Option AddDecision :=
  let cond1 := current_price > s.entry_price * (103/100)
  let cond2 := s.current_risk < s.initial_risk * (7/10)
  let cond3 := s.add_count < p.max_add_times
  if cond1 ∧ cond2 ∧ cond3 then
    some { price := current_price
           size := s.init_size * p.add_fraction ^ s.add_count
           stop := current_price - (3/2) * atr_current }
  else none

/-- Position direction. -/
inductive Direction where
  | long
  | short
deriving DecidableEq

/-- Sizing failure kind (spec section 7). -/
inductive SizingError where
  | InvalidStopDistance
deriving DecidableEq

/-- Modelled from the spec: SizingEngine.initial_size (spec 4.2).  The full
function, with a risk_fraction argument and InvalidStopDistance checking, is
absent from src/; src/docs/ce.md shows only the hard-coded long-case formula
position_size.  size = account_value x risk_fraction / |entry - stop|, error
when the stop is on the wrong side of entry (long: stop >= entry; short:
stop <= entry; both subsume the zero denominator). -/
def initial_size (account_value risk_fraction entry_price initial_stop : ℚ)
    (dir : Direction) : Except SizingError ℚ :=
  match dir with
  | .long =>
      if entry_price ≤ initial_stop then .error .InvalidStopDistance
      else .ok (account_value * risk_fraction / |entry_price - initial_stop|)
  | .short =>
      if initial_stop ≤ entry_price then .error .InvalidStopDistance
      else .ok (account_value * risk_fraction / |entry_price - initial_stop|)

/-- Kind of a risk-matrix row (spec 4.3 / src/docs/ce.md section 七). -/
inductive RiskKind where
  | reversal
  | liquidity
  | volatility
  | resistance
  | overnight
deriving DecidableEq

/-- Mandatory de-risking action of a risk-matrix row. -/
inductive RiskAction where
  | flatten
  | haltAdds
  | reduce50
  | reduce20
  | reduce30
deriving DecidableEq

/-- A timestamp-free risk-matrix trigger record (spec data model). -/
structure RiskEvent where
  kind : RiskKind
  metric_value : ℚ
  action : RiskAction
deriving DecidableEq

/-- Market inputs consumed by one RiskMonitor evaluation (long position). -/
structure MarketSnapshot where
  price : ℚ
  final_stop : ℚ
  atr15 : ℚ
  atr_daily : ℚ
  depth : ℚ
  avg_daily_volume : ℚ
  in_resistance_band : Bool
  overnight_window : Bool
  exposure : ℚ
  overnight_limit : ℚ
deriving DecidableEq

/-- Modelled from the spec: RiskMonitor.evaluate (spec 4.3).  The RiskMonitor
exists in src/ only as the prose risk-matrix table of src/docs/ce.md section
七; the rows are listed here in the table's priority order, each qualifying
row contributing one RiskEvent. -/
def evaluate (s : MarketSnapshot) : List RiskEvent :=
  (if s.price < s.final_stop then [⟨.reversal, s.price, .flatten⟩] else [])
  ++ (if s.depth < (1/20) * s.avg_daily_volume then [⟨.liquidity, s.depth, .haltAdds⟩] else [])
  ++ (if (3/2) * s.atr_daily < s.atr15 then [⟨.volatility, s.atr15, .reduce50⟩] else [])
  ++ (if s.in_resistance_band = true then [⟨.resistance, s.price, .reduce20⟩] else [])
  ++ (if s.overnight_window = true ∧ s.overnight_limit < s.exposure then
        [⟨.overnight, s.exposure, .reduce30⟩] else [])

/-- Modelled from the spec: the first qualifying row of the matrix governs
the position's mandatory action for the cycle. -/
def governingAction (s : MarketSnapshot) : Option RiskAction :=
  (evaluate s).head?.map RiskEvent.action

/-- Modelled from the spec: the volatility-spike row additionally instructs
the StopCalculator to use a tightened multiplier for subsequent
recalculations. -/
def tightenMultiplier (s : MarketSnapshot) : Bool :=
  decide ((3/2) * s.atr_daily < s.atr15)

/-- Payload of an incoming WebSocket message (the fields of message.data
that src/admin/static/js/main.js reads: data.symbol for market data,
data.order_id for order updates; the rest is opaque). -/
structure MsgData where
  symbol : Option String
  order_id : Option String
  payload : String
deriving DecidableEq

/-- A parsed incoming WebSocket message: message.type and message.data. -/
structure IncomingMsg where
  mtype : String
  mdata : MsgData
deriving DecidableEq

/-- One entry of wsManager.messages: id (Date.now()), time (new Date()),
type and data, per src/admin/static/js/main.js lines 54-60. -/
structure WsEntry where
  id : ℕ
  time : ℕ
  mtype : String
  mdata : MsgData
deriving DecidableEq

/-- The mutable fields of wsManager touched by the onmessage handler. -/
structure WsState where
  messages : List WsEntry
  marketData : List (String × MsgData)
  orderUpdates : List MsgData
deriving DecidableEq

/-- The message-history entry built in the handler (both id and time are
taken from the current clock). -/
def wsEntry (now : ℕ) (msg : IncomingMsg) : WsEntry :=
  ⟨now, now, msg.mtype, msg.mdata⟩

/-- Lines 62-65 of src/admin/static/js/main.js: after the push, a history
longer than 100 entries loses its oldest entry (Array.shift). -/
def trimMessages (l : List WsEntry) : List WsEntry :=
  if l.length > 100 then l.tail else l

/-- wsManager.updateMarketData: keyed overwrite of marketData[data.symbol];
no effect when data.symbol is absent. -/
def updateMarketData (st : WsState) (d : MsgData) : WsState :=
  match d.symbol with
  | none => st
  | some sym =>
      { st with marketData := (sym, d) :: st.marketData.filter (fun q => q.1 != sym) }

/-- The findIndex-then-replace-or-push update of wsManager.orderUpdates:
the first entry with the same order_id is replaced, otherwise the new
record is appended. -/
def upsertOrder : List MsgData → String → MsgData → List MsgData
  | [], _, d => [d]
  | o :: os, oid, d =>
      if o.order_id == some oid then d :: os else o :: upsertOrder os oid d

/-- wsManager.updateOrderData: no effect when data.order_id is absent. -/
def updateOrderData (st : WsState) (d : MsgData) : WsState :=
  match d.order_id with
  | none => st
  | some oid => { st with orderUpdates := upsertOrder st.orderUpdates oid d }

/-- The ws.onmessage handler of src/admin/static/js/main.js lines 50-79:
append one entry to the message history, trim it to 100 entries, then
dispatch on message.type. -/
def wsOnMessage (st : WsState) (now : ℕ) (msg : IncomingMsg) : WsState :=
  let st1 : WsState := { st with messages := trimMessages (st.messages ++ [wsEntry now msg]) }
  if msg.mtype = "market_data" then updateMarketData st1 msg.mdata
  else if msg.mtype = "order_update" then updateOrderData st1 msg.mdata
  else st1

/-- wsManager's initial state: empty history, no market data, no orders. -/
def wsInit : WsState := ⟨[], [], []⟩

/-- Membership in a conditional singleton list. -/
theorem mem_ite_singleton {α : Type} {c : Prop} [Decidable c] {x a : α} :
    (x ∈ if c then [a] else ([] : List α)) ↔ c ∧ x = a := by
  split
  next h => simp [h]
  next h => simp [h]

/-- C1 counterexample: two successive long-position updates with no new entry
in between (same highs, risen ATR, fallen close) for which the stored
final_stop strictly decreases: the second update yields 94, the first 98. -/
theorem update_trailing_stop_not_ratcheted :
    update_trailing_stop 100 100 3 2 3 3 95 <
      update_trailing_stop 100 100 3 2 1 1 100 := by
  norm_num [update_trailing_stop, max_def]

/-- C1 (amended): update_trailing_stop recomputes the stop from the current
inputs alone - the result is the gap-protected candidate
max(max(daily_stop, hourly_stop), 0.98 x last_close) - with no ratchet
against a previously stored final_stop, so the stored stop can decrease
across successive updates. -/
theorem update_trailing_stop_eq_clamped_candidate
    (nhd nhh dm hm ad ah lc : ℚ) :
    update_trailing_stop nhd nhh dm hm ad ah lc =
      max (max (nhd - dm * ad) (nhh - hm * ah)) (lc * (98/100)) := by
  simp only [update_trailing_stop]
  rcases lt_or_le (max (nhd - dm * ad) (nhh - hm * ah)) (lc * (98/100)) with h | h
  · rw [if_pos h]
    exact (max_eq_right h.le).symm
  · rw [if_neg (not_lt.2 h)]
    exact (max_eq_left h).symm

/-- C2: at the spec scenario (entry 100, initial size 2000, initial risk
10000, current risk 6000, add_count 0, max 2 adds, add fraction 0.3, price
130) add_position_check approves a lot of size
init_size x add_fraction ^ add_count = 2000, not the 30-percent ladder
value 600 required by the pyramid table of src/docs/ce.md. -/
theorem add_position_check_first_add_size :
    (add_position_check 130 ⟨100, 6000, 10000, 0, 2000⟩ ⟨2, 3/10⟩ 3).map
        AddDecision.size = some 2000 ∧ (2000 : ℚ) ≠ 600 := by
  constructor
  · norm_num [add_position_check]
  · norm_num

/-- C3: add_position_check never reads the ATR for eligibility - at the
spec scenario the add is approved for every current ATR value, in particular
with ATR at twice the initial ATR, where both the claim and the add-condition
list of src/docs/ce.md require rejection. -/
theorem add_position_check_ignores_atr (atr_current : ℚ) :
    (add_position_check 130 ⟨100, 6000, 10000, 0, 2000⟩ ⟨2, 3/10⟩
        atr_current).isSome = true := by
  norm_num [add_position_check]

/-- C4: the volatility-spike RiskEvent, carrying action reduce50, is emitted
exactly when the 15-minute ATR exceeds 1.5 x the daily ATR, and exactly then
the monitor instructs the StopCalculator to tighten its multiplier. -/
theorem volatility_spike_rule (s : MarketSnapshot) :
    (((⟨RiskKind.volatility, s.atr15, RiskAction.reduce50⟩ : RiskEvent) ∈
        evaluate s) ↔ (3/2) * s.atr_daily < s.atr15)
    ∧ (tightenMultiplier s = true ↔ (3/2) * s.atr_daily < s.atr15) := by
  constructor
  · simp [evaluate, mem_ite_singleton]
  · simp [tightenMultiplier]

/-- C5: whenever the trend-reversal and volatility-spike conditions hold
simultaneously, the governing action of the cycle is flatten, while the
lower-priority volatility event is still recorded in the emitted events. -/
theorem risk_priority_flatten (s : MarketSnapshot)
    (h1 : s.price < s.final_stop) (h2 : (3/2) * s.atr_daily < s.atr15) :
    governingAction s = some RiskAction.flatten ∧
      (⟨RiskKind.volatility, s.atr15, RiskAction.reduce50⟩ : RiskEvent) ∈
        evaluate s := by
  constructor
  · simp [governingAction, evaluate, h1]
  · simp [evaluate, mem_ite_singleton, h2]

/-- C5 witness: a concrete snapshot with price 97 below the stop 98 and
15-minute ATR 4 above 1.5 x daily ATR 2. -/
theorem risk_priority_flatten_witness :
    governingAction ⟨97, 98, 4, 2, 1000, 1000, false, false, 0, 0⟩ =
        some RiskAction.flatten ∧
      (⟨RiskKind.volatility, 4, RiskAction.reduce50⟩ : RiskEvent) ∈
        evaluate ⟨97, 98, 4, 2, 1000, 1000, false, false, 0, 0⟩ :=
  risk_priority_flatten ⟨97, 98, 4, 2, 1000, 1000, false, false, 0, 0⟩
    (by norm_num) (by norm_num)

/-- C6: gap protection in update_trailing_stop is an exact clamp: a candidate
strictly below 0.98 x last_close is replaced by exactly 0.98 x last_close and
a candidate at or above that bound is returned unchanged; mirrored at
1.02 x last_close for the modelled short side. -/
theorem gap_protection_exact (nhd nhh dm hm ad ah lc : ℚ) :
    (max (nhd - dm * ad) (nhh - hm * ah) < lc * (98/100) →
        update_trailing_stop nhd nhh dm hm ad ah lc = lc * (98/100))
    ∧ (lc * (98/100) ≤ max (nhd - dm * ad) (nhh - hm * ah) →
        update_trailing_stop nhd nhh dm hm ad ah lc =
          max (nhd - dm * ad) (nhh - hm * ah))
    ∧ (lc * (102/100) < min (nhd + dm * ad) (nhh + hm * ah) →
        update_trailing_stop_short nhd nhh dm hm ad ah lc = lc * (102/100))
    ∧ (min (nhd + dm * ad) (nhh + hm * ah) ≤ lc * (102/100) →
        update_trailing_stop_short nhd nhh dm hm ad ah lc =
          min (nhd + dm * ad) (nhh + hm * ah)) := by
  refine ⟨fun h => ?_, fun h => ?_, fun h => ?_, fun h => ?_⟩
  · simp only [update_trailing_stop]
    rw [if_pos h]
  · simp only [update_trailing_stop]
    rw [if_neg (not_lt.2 h)]
  · simp only [update_trailing_stop_short]
    rw [if_pos h]
  · simp only [update_trailing_stop_short]
    rw [if_neg (not_lt.2 h)]

/-- C6 witness: candidate max(94, 96) = 96 lies strictly below the bound
0.98 x 100 = 98, and the applied stop is exactly that bound. -/
theorem gap_protection_exact_witness :
    update_trailing_stop 100 100 3 2 2 2 100 = 100 * (98/100) :=
  (gap_protection_exact 100 100 3 2 2 2 100).1 (by norm_num [max_def])

/-- C7: with valid data on both timeframes, calculate_dynamic_stop returns
the maximum of the daily and hourly stops; at the spec scenario the stops
are 118 and 121 and the result is 121. -/
theorem hybrid_timeframe_max :
    (∀ last22 curday ad hs ah hh, listMax hs = some hh →
        calculate_dynamic_stop last22 curday ad hs ah =
          some (max (max last22 curday - 3 * ad) (hh - 2 * ah)))
    ∧ calculate_dynamic_stop 130 130 4 [125] 2 = some 121 := by
  constructor
  · intro last22 curday ad hs ah hh h
    simp only [calculate_dynamic_stop, h]
  · norm_num [calculate_dynamic_stop, listMax, max_def]

/-- C7 witness: a concrete one-element hourly window. -/
theorem hybrid_timeframe_max_witness :
    calculate_dynamic_stop 120 119 1 [110] 3 =
      some (max (max 120 119 - 3 * 1) (110 - 2 * 3)) :=
  hybrid_timeframe_max.1 120 119 1 [110] 3 110 rfl

/-- C8: for every valid stop distance the initial size is
account_value x risk_fraction / |entry - stop|; the spec scenario gives
exactly 2000, and the position_size snippet of src/docs/ce.md agrees on it. -/
theorem initial_size_formula :
    (∀ av rf e st, st < e →
        initial_size av rf e st Direction.long =
          Except.ok (av * rf / |e - st|))
    ∧ (∀ av rf e st, e < st →
        initial_size av rf e st Direction.short =
          Except.ok (av * rf / |e - st|))
    ∧ initial_size 1000000 (1/100) 100 95 Direction.long = Except.ok 2000
    ∧ position_size 1000000 100 95 = 2000 := by
  refine ⟨fun av rf e st h => ?_, fun av rf e st h => ?_, ?_, ?_⟩
  · simp only [initial_size]
    rw [if_neg (not_le.2 h)]
  · simp only [initial_size]
    rw [if_neg (not_le.2 h)]
  · simp only [initial_size]
    rw [if_neg (by norm_num : ¬ (100:ℚ) ≤ 95),
      abs_of_pos (by norm_num : (0:ℚ) < 100 - 95)]
    norm_num
  · norm_num [position_size]

/-- C8 witness: a long entry at 10 with stop 8. -/
theorem initial_size_formula_witness :
    initial_size 500 (1/100) 10 8 Direction.long =
      Except.ok (500 * (1/100) / |(10:ℚ) - 8|) :=
  initial_size_formula.1 500 (1/100) 10 8 (by norm_num)

/-- C9: initial_size fails with InvalidStopDistance exactly when the stop is
on the wrong side of (or equal to) the entry - long: stop >= entry, short:
stop <= entry - and exactly in those cases no size is returned. -/
theorem invalid_stop_distance_iff (av rf e st : ℚ) :
    (initial_size av rf e st Direction.long =
        Except.error SizingError.InvalidStopDistance ↔ e ≤ st)
    ∧ (initial_size av rf e st Direction.short =
        Except.error SizingError.InvalidStopDistance ↔ st ≤ e)
    ∧ ((∀ q, initial_size av rf e st Direction.long ≠ Except.ok q) ↔ e ≤ st)
    ∧ ((∀ q, initial_size av rf e st Direction.short ≠ Except.ok q) ↔ st ≤ e) := by
  refine ⟨?_, ?_, ?_, ?_⟩
  · by_cases h : e ≤ st
    · simp [initial_size, h]
    · simp [initial_size, h]
  · by_cases h : st ≤ e
    · simp [initial_size, h]
    · simp [initial_size, h]
  · by_cases h : e ≤ st
    · simp only [initial_size, if_pos h]
      exact iff_of_true (fun q hq => Except.noConfusion hq) h
    · simp only [initial_size, if_neg h]
      exact iff_of_false (fun hall => hall _ rfl) h
  · by_cases h : st ≤ e
    · simp only [initial_size, if_pos h]
      exact iff_of_true (fun q hq => Except.noConfusion hq) h
    · simp only [initial_size, if_neg h]
      exact iff_of_false (fun hall => hall _ rfl) h

/-- The market-data branch of the dispatch never touches the message
history. -/
theorem updateMarketData_messages (st : WsState) (d : MsgData) :
    (updateMarketData st d).messages = st.messages := by
  simp only [updateMarketData]
  split <;> rfl

/-- The order-update branch of the dispatch never touches the message
history. -/
theorem updateOrderData_messages (st : WsState) (d : MsgData) :
    (updateOrderData st d).messages = st.messages := by
  simp only [updateOrderData]
  split <;> rfl

/-- After a handler run the message history is the pushed-then-trimmed
history, whatever the message type. -/
theorem wsOnMessage_messages (st : WsState) (now : ℕ) (msg : IncomingMsg) :
    (wsOnMessage st now msg).messages =
      trimMessages (st.messages ++ [wsEntry now msg]) := by
  simp only [wsOnMessage]
  split
  · rw [updateMarketData_messages]
  · split
    · rw [updateOrderData_messages]
    · rfl

/-- Trimming a history of at most 101 entries leaves at most 100. -/
theorem trimMessages_length (l : List WsEntry) (h : l.length ≤ 101) :
    (trimMessages l).length ≤ 100 := by
  simp only [trimMessages]
  split
  · rw [List.length_tail]
    omega
  · omega

/-- Folding the handler over any message stream keeps the bound. -/
theorem ws_foldl_bounded (stream : List (ℕ × IncomingMsg)) (st : WsState)
    (h : st.messages.length ≤ 100) :
    ((stream.foldl (fun acc q => wsOnMessage acc q.1 q.2) st).messages.length
      ≤ 100) := by
  induction stream generalizing st with
  | nil => simpa using h
  | cons q rest ih =>
      simp only [List.foldl_cons]
      refine ih _ ?_
      rw [wsOnMessage_messages]
      refine trimMessages_length _ ?_
      simp only [List.length_append, List.length_singleton]
      omega

/-- C10: each handler run appends exactly one entry to wsManager.messages
and, when the history would exceed 100 entries, removes the single oldest
one, so a history of at most 100 entries stays at that bound and, starting
from the empty history, no stream of messages ever pushes it past 100. -/
theorem ws_messages_bounded :
    (∀ st now msg, st.messages.length ≤ 100 →
        ((wsOnMessage st now msg).messages.length ≤ 100 ∧
          (st.messages.length < 100 →
              (wsOnMessage st now msg).messages =
                st.messages ++ [wsEntry now msg]) ∧
          (st.messages.length = 100 →
              (wsOnMessage st now msg).messages =
                (st.messages ++ [wsEntry now msg]).tail)))
    ∧ (∀ stream : List (ℕ × IncomingMsg),
        ((stream.foldl (fun acc q => wsOnMessage acc q.1 q.2)
            wsInit).messages.length ≤ 100)) := by
  constructor
  · intro st now msg h
    refine ⟨?_, ?_, ?_⟩
    · rw [wsOnMessage_messages]
      refine trimMessages_length _ ?_
      simp only [List.length_append, List.length_singleton]
      omega
    · intro hlt
      rw [wsOnMessage_messages]
      simp only [trimMessages]
      rw [if_neg (by simp only [List.length_append, List.length_singleton]; omega)]
    · intro heq
      rw [wsOnMessage_messages]
      simp only [trimMessages]
      rw [if_pos (by simp only [List.length_append, List.length_singleton]; omega)]
  · intro stream
    exact ws_foldl_bounded stream wsInit (by simp [wsInit])

/-- C10 witness: one market-data message arriving on the empty history. -/
theorem ws_messages_bounded_witness :
    (wsOnMessage wsInit 0 ⟨"market_data", ⟨some ("A"), none, "p"⟩⟩).messages.length
      ≤ 100 :=
  (ws_messages_bounded.1 wsInit 0 ⟨"market_data", ⟨some ("A"), none, "p"⟩⟩
    (by simp [wsInit])).1
